import Mathlib

/-!
Verification of the WattBox protocol client (pywattbox_api_v2_4).

This file shallowly embeds the pure/deterministic core of the client:
the response parsers (models.py), the helper predicates (utils.py),
the command formatters (endpoints.py), and the facade methods of
`WattBoxClient` (client.py).  Socket I/O is modelled by a scripted
device: a list of per-exchange responders, each mapping the formatted
command that was sent to the list of lines the socket would deliver
(one entry per `_read_until_newline` call; reading past the end of the
list yields the empty string, matching a read that times out with an
empty buffer).  Python strings are Lean `String`s restricted to their
ASCII behaviour (`str.isdigit`, `str.lower`, `re`'s `\d` are modelled
on ASCII digits), Python `float` is modelled by `Rat` on the plain
decimal literals the protocol uses, and Python exceptions become an
explicit error type distinguishing the exception classes that the
client's `except` clauses distinguish.
-/

/-- Python exception classes that the client distinguishes in `except`
clauses: built-in `ValueError` / `IndexError` and the `WattBoxError`
subclasses from exceptions.py. -/
inductive PyErr where
  | valueError (msg : String)
  | indexError (msg : String)
  | commandError (msg : String)
  | timeoutError (msg : String)
  | connectionError (msg : String)
  | authenticationError (msg : String)
deriving Repr, DecidableEq

def PyErr.isValueError : PyErr → Bool
  | .valueError _ => true
  | _ => false

def PyErr.isValueOrIndexError : PyErr → Bool
  | .valueError _ => true
  | .indexError _ => true
  | _ => false

def PyErr.isCommandError : PyErr → Bool
  | .commandError _ => true
  | _ => false

def PyErr.isTimeoutError : PyErr → Bool
  | .timeoutError _ => true
  | _ => false

/-- The characters Python's `str.strip()` removes (ASCII whitespace). -/
def pyWs (c : Char) : Bool :=
  c = ' ' || c = '\t' || c = '\n' || c = '\r' || c = '\x0b' || c = '\x0c'

/-- Embedding of `str.strip()` on a character list. -/
def stripL (l : List Char) : List Char :=
  ((l.dropWhile pyWs).reverse.dropWhile pyWs).reverse

/-- Python `str.strip()`. -/
def pyStrip (s : String) : String := ⟨stripL s.data⟩

/-- Python `str.lower()` (ASCII). -/
def pyLower (s : String) : String := ⟨s.data.map Char.toLower⟩

/-- Python `str.startswith(pre)`. -/
def pyStarts (s pre : String) : Bool := pre.data.isPrefixOf s.data

/-- Python `str.endswith(suff)`. -/
def pyEnds (s suff : String) : Bool := suff.data.isSuffixOf s.data

/-- Substring containment on character lists. -/
def subList (needle : List Char) : List Char → Bool
  | [] => needle.isEmpty
  | c :: rest => needle.isPrefixOf (c :: rest) || subList needle rest

/-- Python `needle in hay` on strings (substring containment). -/
def pyIn (needle hay : String) : Bool := subList needle.data hay.data

/-- Python `str.split(sep)` for a one-character separator, on lists. -/
def splitOnChar (sep : Char) : List Char → List (List Char)
  | [] => [[]]
  | c :: rest =>
    if c = sep then [] :: splitOnChar sep rest
    else
      match splitOnChar sep rest with
      | [] => [[c]]
      | g :: gs => (c :: g) :: gs

/-- Python `str.split(sep)` for a one-character separator. -/
def pySplit (s : String) (sep : Char) : List String :=
  (splitOnChar sep s.data).map (fun l => ⟨l⟩)

/-- Python `str.replace(pat, "")` on lists: remove every occurrence of
`pat`, scanning left to right (an empty `pat` removes nothing).  The
fuel argument only drives structural recursion: every step consumes at
least one character, so fuel equal to the length of the list is always
sufficient. -/
def removeAllFuel (pat : List Char) : Nat → List Char → List Char
  | 0, _ => []
  | _ + 1, [] => []
  | fuel + 1, c :: rest =>
    if pat ≠ [] ∧ pat.isPrefixOf (c :: rest) = true then
      removeAllFuel pat fuel ((c :: rest).drop pat.length)
    else
      c :: removeAllFuel pat fuel rest

def removeAll (pat l : List Char) : List Char := removeAllFuel pat l.length l

/-- Python `str.replace(pat, "")`. -/
def pyRemove (s pat : String) : String := ⟨removeAll pat.data s.data⟩

/-- Numeric value of a list of ASCII digits. -/
def digitsToNat (l : List Char) : Nat :=
  l.foldl (fun a c => a * 10 + (c.toNat - 48)) 0

/-- Python `str.isdigit()`, restricted to ASCII digits. -/
def pyIsDigit (s : String) : Bool := !s.data.isEmpty && s.data.all Char.isDigit

/-- Python `int(s)`: strip whitespace, optional sign, nonempty run of
digits (underscore separators are not modelled; the protocol never
produces them).  `none` models a raised `ValueError`. -/
def pyInt (s : String) : Option Int :=
  match stripL s.data with
  | [] => none
  | '+' :: rest =>
    if !rest.isEmpty && rest.all Char.isDigit then some (digitsToNat rest) else none
  | '-' :: rest =>
    if !rest.isEmpty && rest.all Char.isDigit then some (-(digitsToNat rest : Int)) else none
  | l =>
    if l.all Char.isDigit then some (digitsToNat l) else none

/-- Decimal part of Python `float(s)` parsing: `[digits][.digits]` with
at least one digit.  Exponent and inf/nan forms are not modelled; the
protocol only carries plain decimal literals. -/
def parseDecimal (l : List Char) : Option Rat :=
  let ip := l.takeWhile Char.isDigit
  let rest := l.dropWhile Char.isDigit
  match rest with
  | [] => if ip.isEmpty then none else some (mkRat (digitsToNat ip) 1)
  | '.' :: frac =>
    if frac.all Char.isDigit && (!ip.isEmpty || !frac.isEmpty) then
      some (mkRat (digitsToNat ip * 10 ^ frac.length + digitsToNat frac) (10 ^ frac.length))
    else none
  | _ => none

/-- Python `float(s)` on plain decimal literals.  `none` models a
raised `ValueError`. -/
def pyFloat (s : String) : Option Rat :=
  match stripL s.data with
  | '+' :: rest => parseDecimal rest
  | '-' :: rest => (parseDecimal rest).map Neg.neg
  | l => parseDecimal l

/-- Maximal runs of ASCII digits, in order: `re.findall(r'\d+', s)`. -/
def digitRunsAux : List Char → List Char → List (List Char)
  | [], acc => if acc.isEmpty then [] else [acc.reverse]
  | c :: rest, acc =>
    if c.isDigit then digitRunsAux rest (c :: acc)
    else if acc.isEmpty then digitRunsAux rest []
    else acc.reverse :: digitRunsAux rest []

/-- Embedding of `re.findall(r'\d+', s)` (ASCII). -/
def digitRuns (s : String) : List (List Char) := digitRunsAux s.data []

/-- Embedding of `int` of the last number found in the string, if any:
`re.findall(r'\d+', s)[-1]`. -/
def lastNumber (s : String) : Option Nat :=
  (digitRuns s).getLast?.map digitsToNat

/-- Embedding of `re.search(r'-(\d+)$', s)`: the trailing run of digits when it is
nonempty and immediately preceded by a hyphen. -/
def trailingHyphenNumber (s : String) : Option Nat :=
  let rev := s.data.reverse
  let ds := rev.takeWhile Char.isDigit
  match ds, rev.dropWhile Char.isDigit with
  | [], _ => none
  | _, '-' :: _ => some (digitsToNat ds.reverse)
  | _, _ => none

/-- Modelled from the spec words of §4.5 for comparison with the code:
"extract a trailing numeric suffix from the model string (pattern:
last hyphen-delimited numeric group)", i.e. the regex `-(\d+)$`. -/
def specTrailingNumericGroup (s : String) : Option Nat :=
  let rev := s.data.reverse
  let ds := rev.takeWhile Char.isDigit
  match ds, rev.dropWhile Char.isDigit with
  | [], _ => none
  | _, '-' :: _ => some (digitsToNat ds.reverse)
  | _, _ => none

/-- Embedding of `re.findall(r'\{([^}]*)\}', s)`: scan for brace-delimited groups;
a group may contain any character except a closing brace, and an
unclosed group at the end of the string is not matched. -/
def bracedAux : List Char → Option (List Char) → List String
  | [], _ => []
  | c :: rest, none =>
    if c = '\x7b' then bracedAux rest (some []) else bracedAux rest none
  | c :: rest, some acc =>
    if c = '\x7d' then (⟨acc.reverse⟩ : String) :: bracedAux rest none
    else bracedAux rest (some (c :: acc))

/-- Embedding of `re.findall(r'\{([^}]*)\}', s)`. -/
def bracedGroups (s : String) : List String := bracedAux s.data none

/-! ## Data model (models.py) -/

/-- Outlet control actions (enum `OutletAction`). -/
inductive OutletAction where
  | ON | OFF | TOGGLE | RESET
deriving Repr, DecidableEq

/-- Embedding of `OutletAction.value`: the wire text of the action. -/
def OutletAction.value : OutletAction → String
  | .ON => "ON"
  | .OFF => "OFF"
  | .TOGGLE => "TOGGLE"
  | .RESET => "RESET"

/-- Outlet operating modes (enum `OutletMode`). -/
inductive OutletMode where
  | ENABLED | DISABLED | RESET_ONLY
deriving Repr, DecidableEq

/-- Information about a specific outlet (dataclass `OutletInfo`).
Python floats are modelled by `Rat`. -/
structure OutletInfo where
  index : Int
  name : String
  status : Bool
  power_watts : Option Rat := none
  current_amps : Option Rat := none
  voltage_volts : Option Rat := none
  mode : Option OutletMode := none
  power_on_delay : Option Int := none
deriving Repr, DecidableEq

/-- System-wide power status (dataclass `PowerStatus`). -/
structure PowerStatus where
  current_amps : Rat
  power_watts : Rat
  voltage_volts : Rat
  safe_voltage_status : Bool
deriving Repr, DecidableEq

/-- UPS status information (dataclass `UPSStatus`). -/
structure UPSStatus where
  battery_charge : Int
  battery_load : Int
  battery_health : String
  power_lost : Bool
  battery_runtime : Int
  alarm_enabled : Bool
  alarm_muted : Bool
deriving Repr, DecidableEq

/-- Device system information (dataclass `SystemInfo`). -/
structure SystemInfo where
  firmware : String
  hostname : String
  service_tag : String
  model : String
  outlet_count : Int
deriving Repr, DecidableEq

/-- Complete WattBox device state (dataclass `WattBoxDevice`). -/
structure WattBoxDevice where
  system_info : SystemInfo
  outlets : List OutletInfo
  power_status : Option PowerStatus := none
  ups_status : Option UPSStatus := none
  ups_connected : Bool := false
  auto_reboot_enabled : Bool := false
deriving Repr, DecidableEq

/-! ## Endpoints (endpoints.py) -/

def WattBoxEndpoints.FIRMWARE : String := "?Firmware"
def WattBoxEndpoints.HOSTNAME : String := "?Hostname"
def WattBoxEndpoints.SERVICE_TAG : String := "?ServiceTag"
def WattBoxEndpoints.MODEL : String := "?Model"
def WattBoxEndpoints.OUTLET_COUNT : String := "?OutletCount"
def WattBoxEndpoints.OUTLET_STATUS : String := "?OutletStatus"
def WattBoxEndpoints.OUTLET_NAMES : String := "?OutletName"
def WattBoxEndpoints.POWER_STATUS : String := "?PowerStatus"
def WattBoxEndpoints.AUTO_REBOOT : String := "?AutoReboot"
def WattBoxEndpoints.UPS_STATUS : String := "?UPSStatus"
def WattBoxEndpoints.UPS_CONNECTION : String := "?UPSConnection"

/-- Embedding of `WattBoxEndpoints.outlet_power_status(outlet)`. -/
def WattBoxEndpoints.outlet_power_status (outlet : Int) : String :=
  "?OutletPowerStatus=" ++ toString outlet

/-- Embedding of `WattBoxEndpoints.outlet_set(outlet, action, delay)`. -/
def WattBoxEndpoints.outlet_set (outlet : Int) (action : String) (delay : Option Int) : String :=
  match delay with
  | some d => "!OutletSet=" ++ toString outlet ++ "," ++ action ++ "," ++ toString d
  | none => "!OutletSet=" ++ toString outlet ++ "," ++ action

/-! ## Helper predicates (utils.py) -/

/-- Embedding of `is_success_response`: the response stripped equals `"OK"`. -/
def is_success_response (response : String) : Bool :=
  pyStrip response == "OK"

/-- Embedding of `is_error_response`: the response stripped starts with `"#Error"`. -/
def is_error_response (response : String) : Bool :=
  pyStarts (pyStrip response) "#Error"

/-- Embedding of `format_command`: append the line terminator if missing. -/
def format_command (command : String) : String :=
  if pyEnds command "\n" then command else command ++ "\n"

/-- Embedding of `validate_outlet_number`: `1 <= outlet <= max_outlets`. -/
def validate_outlet_number (outlet max_outlets : Int) : Bool :=
  decide (1 ≤ outlet) && decide (outlet ≤ max_outlets)

/-! ## Response parsers (models.py)

Each parser is a pure function from the raw response line to a typed
record or an error; `.error (.valueError _)` models a raised
`ValueError`. -/

/-- Embedding of `parse_outlet_status_response`. -/
def parse_outlet_status_response (response : String) : Except PyErr (List Bool) :=
  if !pyStarts response "?OutletStatus=" then
    .error (.valueError ("Invalid outlet status response: " ++ response))
  else
    let status_part := pyStrip (pyRemove response "?OutletStatus=")
    let status_values := pySplit status_part ','
    .ok (status_values.filterMap fun val =>
      if pyIsDigit val then some (decide (digitsToNat val.data ≠ 0)) else none)

/-- Embedding of `parse_outlet_names_response`. -/
def parse_outlet_names_response (response : String) : Except PyErr (List String) :=
  if !pyStarts response "?OutletName=" then
    .error (.valueError ("Invalid outlet names response: " ++ response))
  else
    let names_part := pyStrip (pyRemove response "?OutletName=")
    .ok (bracedGroups names_part)

/-- Embedding of `parse_outlet_power_response`. -/
def parse_outlet_power_response (response : String) : Except PyErr OutletInfo :=
  if !pyStarts response "?OutletPowerStatus=" then
    .error (.valueError ("Invalid outlet power response: " ++ response))
  else
    let power_part := pyStrip (pyRemove response "?OutletPowerStatus=")
    let values := pySplit power_part ','
    match values with
    | [v0, v1, v2, v3] =>
      match pyInt v0, pyFloat v1, pyFloat v2, pyFloat v3 with
      | some i, some w, some a, some v =>
        .ok { index := i, name := "Outlet " ++ v0, status := true,
              power_watts := some w, current_amps := some a, voltage_volts := some v }
      | _, _, _, _ =>
        .error (.valueError ("Failed to parse outlet power values: " ++ response))
    | _ =>
      .error (.valueError
        ("Expected 4 values in power response, got " ++ toString values.length ++ ": " ++ response))

/-- Embedding of `parse_power_status_response`.  The prefix may be present or absent;
a line that starts with `?` but is not a power-status line is rejected. -/
def parse_power_status_response (response : String) : Except PyErr PowerStatus :=
  let r := pyStrip response
  let pp? : Except PyErr String :=
    if pyStarts r "?PowerStatus=" then .ok (pyRemove r "?PowerStatus=")
    else if pyIn "," r && !pyStarts r "?" then .ok r
    else if pyStarts r "?OutletName=" then
      .error (.valueError
        ("Device returned outlet names instead of power status. Device may not support PowerStatus command: " ++ r))
    else .error (.valueError ("Invalid power status response format: " ++ r))
  match pp? with
  | .error e => .error e
  | .ok pp =>
    let values := pySplit (pyStrip pp) ','
    match values with
    | [v0, v1, v2, v3] =>
      match pyFloat v0, pyFloat v1, pyFloat v2, pyInt v3 with
      | some a, some w, some v, some sv =>
        .ok { current_amps := a, power_watts := w, voltage_volts := v,
              safe_voltage_status := decide (sv ≠ 0) }
      | _, _, _, _ =>
        .error (.valueError ("Failed to parse power status values: " ++ r))
    | _ =>
      .error (.valueError
        ("Expected 4 values in power status response, got " ++ toString values.length ++ ": " ++ r))

/-- Embedding of `parse_ups_status_response`. -/
def parse_ups_status_response (response : String) : Except PyErr UPSStatus :=
  if !pyStarts response "?UPSStatus=" then
    .error (.valueError ("Invalid UPS status response: " ++ response))
  else
    let ups_part := pyStrip (pyRemove response "?UPSStatus=")
    let values := pySplit ups_part ','
    match values with
    | [v0, v1, v2, v3, v4, v5, v6] =>
      match pyInt v0, pyInt v1, pyInt v4 with
      | some charge, some load, some runtime =>
        .ok { battery_charge := charge, battery_load := load, battery_health := v2,
              power_lost := pyLower v3 == "true", battery_runtime := runtime,
              alarm_enabled := pyLower v5 == "true", alarm_muted := pyLower v6 == "true" }
      | _, _, _ =>
        .error (.valueError ("Failed to parse UPS status values: " ++ response))
    | _ =>
      .error (.valueError
        ("Expected 7 values in UPS status response, got " ++ toString values.length))

/-! ## Client embedding (client.py)

The client is embedded as explicit state passing over `ClientState`.
The scripted device is the remaining list of exchanges: each
`_send_command` call consumes one responder (the mutual-exclusion lock
makes the send-drain-receive cycle atomic, so an exchange is one step
of the model); the responder maps the formatted command to the list of
lines successive `_read_until_newline` calls deliver.  `time.sleep`
and the best-effort `_clear_input_buffer` drain have no observable
effect in this model.  The model covers an authenticated session. -/

structure ClientState where
  script : List (String → List String)
  sent : List String
  outlet_count : Option Int
  model : Option String
  firmware : Option String
  device_info : Option WattBoxDevice

/-- Initial state for a scripted run: connected, authenticated, no
cached data. -/
def initState (script : List (String → List String)) : ClientState :=
  { script := script, sent := [], outlet_count := none, model := none,
    firmware := none, device_info := none }

/-- Result of one `_read_until_newline` call: line `i` of the current
exchange, stripped; reading past the scripted lines gives `""`. -/
def readLineAt (lines : List String) (i : Nat) : String :=
  pyStrip (lines.getD i "")

/-- The query prefix `_send_command` expects the response to start
with: the formatted command stripped, cut at the first `=` when one is
present. -/
def expectedPre (formatted : String) : String :=
  if pyIn "=" formatted then (pySplit (pyStrip formatted) '=').getD 0 ""
  else pyStrip formatted

/-- The cross-talk recovery loop of `_send_command`: up to 3 extra
reads looking for a line with the expected query prefix; an empty read
stops early; if no read matches, the first line is kept. -/
def crossTalk (lines : List String) (want line0 : String) : String :=
  let a1 := readLineAt lines 1
  if pyStarts a1 want then a1
  else if a1 = "" then line0
  else
    let a2 := readLineAt lines 2
    if pyStarts a2 want then a2
    else if a2 = "" then line0
    else
      let a3 := readLineAt lines 3
      if pyStarts a3 want then a3
      else line0

/-- Embedding of `WattBoxClient._send_command`: format the command, consume one
scripted exchange, read one line, apply the cross-talk recovery for
query commands, and classify `#Error` responses as `WattBoxCommandError`. -/
def sendCommand (command : String) (s : ClientState) : Except PyErr String × ClientState :=
  let formatted := format_command command
  let lines := match s.script.head? with
    | some r => r formatted
    | none => []
  let s' := { s with script := s.script.tail, sent := s.sent ++ [formatted] }
  let line0 := readLineAt lines 0
  let response :=
    if pyStarts (pyStrip formatted) "?" && !pyStarts line0 (expectedPre formatted) then
      crossTalk lines (expectedPre formatted) line0
    else line0
  if is_error_response response then
    (.error (.commandError ("Command failed: " ++ response)), s')
  else
    (.ok response, s')

/-- Embedding of `WattBoxClient._determine_outlet_count_by_testing`: query outlet
status and count the comma-separated tokens; any failure or shapeless
response falls back to 8. -/
def determineOutletCountByTesting (s : ClientState) : Int × ClientState :=
  match sendCommand WattBoxEndpoints.OUTLET_STATUS s with
  | (.error _, s1) => (8, s1)
  | (.ok response, s1) =>
    if response ≠ "" ∧ pyIn "=" response then
      ((pySplit ((pySplit response '=').getD 1 "") ',').length, s1)
    else (8, s1)

/-- Embedding of `WattBoxClient._extract_outlet_count_from_model`: for the
outlet-count response text and then the model name, take the trailing
`-digits` group if present, else the last number anywhere in the text;
if neither text yields a number, fall back to the live status query. -/
def extractFromText (t : String) : Option Nat :=
  if t = "" then none
  else
    match trailingHyphenNumber t with
    | some n => some n
    | none => lastNumber t

def extractOutletCountFromModel (outlet_count_response model_name : String)
    (s : ClientState) : Int × ClientState :=
  match extractFromText outlet_count_response with
  | some n => ((n : Int), s)
  | none =>
    match extractFromText model_name with
    | some n => ((n : Int), s)
    | none => determineOutletCountByTesting s

/-- The outlet-count computation of `get_system_info`: parse the field
after `=` (first comma-separated token, stripped); `0` when no `=`;
on a parse failure fall back to `_extract_outlet_count_from_model`. -/
def outletCountFromResp (outlet_count_resp model_val : String)
    (s : ClientState) : Int × ClientState :=
  if pyIn "=" outlet_count_resp then
    let count_str :=
      pyStrip ((pySplit ((pySplit outlet_count_resp '=').getD 1 "") ',').getD 0 "")
    match pyInt count_str with
    | some n => (n, s)
    | none => extractOutletCountFromModel outlet_count_resp model_val s
  else (0, s)

/-- The `x.split("=")[1] if "=" in x else x` pattern used on the system
info responses. -/
def fieldAfterEq (x : String) : String :=
  if pyIn "=" x then (pySplit x '=').getD 1 "" else x

/-- Embedding of `WattBoxClient.get_system_info`: five queries, the outlet-count
fallback chain, and caching of outlet count, model and firmware. -/
def getSystemInfo (s : ClientState) : Except PyErr SystemInfo × ClientState :=
  match sendCommand WattBoxEndpoints.FIRMWARE s with
  | (.error e, s1) => (.error e, s1)
  | (.ok firmware, s1) =>
  match sendCommand WattBoxEndpoints.HOSTNAME s1 with
  | (.error e, s2) => (.error e, s2)
  | (.ok hostname, s2) =>
  match sendCommand WattBoxEndpoints.SERVICE_TAG s2 with
  | (.error e, s3) => (.error e, s3)
  | (.ok service_tag, s3) =>
  match sendCommand WattBoxEndpoints.MODEL s3 with
  | (.error e, s4) => (.error e, s4)
  | (.ok model, s4) =>
  match sendCommand WattBoxEndpoints.OUTLET_COUNT s4 with
  | (.error e, s5) => (.error e, s5)
  | (.ok outlet_count_resp, s5) =>
    let firmware_val := fieldAfterEq firmware
    let hostname_val := fieldAfterEq hostname
    let service_tag_val := fieldAfterEq service_tag
    let model_val := fieldAfterEq model
    let (outlet_count_val, s6) := outletCountFromResp outlet_count_resp model_val s5
    (.ok { firmware := firmware_val, hostname := hostname_val,
           service_tag := service_tag_val, model := model_val,
           outlet_count := outlet_count_val },
     { s6 with outlet_count := some outlet_count_val, model := some model_val,
               firmware := some firmware_val })

/-- Embedding of `WattBoxClient.get_outlet_count`: cached after the first successful
determination; a parse failure falls back to the live status query;
command/timeout errors from the query itself propagate. -/
def getOutletCount (s : ClientState) : Except PyErr Int × ClientState :=
  match s.outlet_count with
  | some c => (.ok c, s)
  | none =>
    match sendCommand WattBoxEndpoints.OUTLET_COUNT s with
    | (.error e, s1) =>
      if e.isValueOrIndexError then
        let (count, s2) := determineOutletCountByTesting s1
        (.ok count, { s2 with outlet_count := some count })
      else (.error e, s1)
    | (.ok response, s1) =>
      if pyIn "=" response then
        let count_str :=
          pyStrip ((pySplit ((pySplit response '=').getD 1 "") ',').getD 0 "")
        match pyInt count_str with
        | some count => (.ok count, { s1 with outlet_count := some count })
        | none =>
          let (count, s2) := determineOutletCountByTesting s1
          (.ok count, { s2 with outlet_count := some count })
      else (.ok 0, { s1 with outlet_count := some (0 : Int) })

/-- The body of the `try` block in `get_outlet_status`: one query plus
parse. -/
def outletStatusAttempt (s : ClientState) : Except PyErr (List Bool) × ClientState :=
  match sendCommand WattBoxEndpoints.OUTLET_STATUS s with
  | (.error e, s1) => (.error e, s1)
  | (.ok response, s1) => (parse_outlet_status_response response, s1)

/-- Embedding of `WattBoxClient.get_outlet_status`: a `ValueError` (parse failure)
triggers one retry after a settle delay; a second `ValueError` degrades
to the empty list; other errors propagate. -/
def getOutletStatus (s : ClientState) : Except PyErr (List Bool) × ClientState :=
  match outletStatusAttempt s with
  | (.ok l, s1) => (.ok l, s1)
  | (.error e, s1) =>
    if e.isValueError then
      match outletStatusAttempt s1 with
      | (.ok l, s2) => (.ok l, s2)
      | (.error e2, s2) =>
        if e2.isValueError then (.ok [], s2) else (.error e2, s2)
    else (.error e, s1)

/-- Embedding of `WattBoxClient.get_outlet_names`. -/
def getOutletNames (s : ClientState) : Except PyErr (List String) × ClientState :=
  match sendCommand WattBoxEndpoints.OUTLET_NAMES s with
  | (.error e, s1) => (.error e, s1)
  | (.ok response, s1) => (parse_outlet_names_response response, s1)

/-- Embedding of `WattBoxClient.get_outlet_power_status`: `None` when the device
does not support per-outlet telemetry (a `ValueError`/`IndexError`);
an invalid outlet number raises `ValueError`. -/
def getOutletPowerStatus (outlet : Int) (s : ClientState) :
    Except PyErr (Option OutletInfo) × ClientState :=
  match getOutletCount s with
  | (.error e, s1) => (.error e, s1)
  | (.ok outlet_count, s1) =>
    if !validate_outlet_number outlet outlet_count then
      (.error (.valueError ("Invalid outlet number: " ++ toString outlet)), s1)
    else
      match sendCommand (WattBoxEndpoints.outlet_power_status outlet) s1 with
      | (.error e, s2) =>
        if e.isValueOrIndexError then (.ok none, s2) else (.error e, s2)
      | (.ok response, s2) =>
        match parse_outlet_power_response response with
        | .ok oi => (.ok (some oi), s2)
        | .error e =>
          if e.isValueOrIndexError then (.ok none, s2) else (.error e, s2)

/-- The per-outlet loop of `get_all_outlets_power_data`: any failure
for one outlet stores `None` for it and the loop continues. -/
def powerLoop (n : Nat) (idx : Int) (s : ClientState) :
    List (Int × Option OutletInfo) × ClientState :=
  match n with
  | 0 => ([], s)
  | m + 1 =>
    let (entry, s1) :=
      match getOutletPowerStatus idx s with
      | (.ok o, t) => (o, t)
      | (.error _, t) => ((none : Option OutletInfo), t)
    let (rest, s2) := powerLoop m (idx + 1) s1
    ((idx, entry) :: rest, s2)

/-- Embedding of `WattBoxClient.get_all_outlets_power_data`: power data for outlets
1..count; a failure to even determine the count yields the empty
dictionary. -/
def getAllOutletsPowerData (s : ClientState) :
    List (Int × Option OutletInfo) × ClientState :=
  match getOutletCount s with
  | (.error _, s1) => ([], s1)
  | (.ok outlet_count, s1) => powerLoop outlet_count.toNat 1 s1

/-- Dictionary lookup `power_data[outlet_num]` guarded by membership. -/
def lookupPower (pd : List (Int × Option OutletInfo)) (k : Int) : Option (Option OutletInfo) :=
  (pd.find? (fun e => e.1 = k)).map Prod.snd

/-- The default outlet names `"Outlet N"` synthesized when the name
query fails. -/
def defaultNames (outlet_count : Int) : List String :=
  (List.range outlet_count.toNat).map (fun i => "Outlet " ++ toString (i + 1))

/-- The assembly loop of `get_all_outlets_info`: one `OutletInfo` per
index `1..outlet_count`, padding missing statuses with `False` and
missing names with defaults. -/
def assembleOutlets (outlet_count : Int) (outlet_statuses : List Bool)
    (outlet_names : List String) (include_power_data : Bool)
    (power_data : List (Int × Option OutletInfo)) : List OutletInfo :=
  (List.range outlet_count.toNat).map (fun i =>
    let outlet_num : Int := Int.ofNat i + 1
    let status := outlet_statuses.getD i false
    let name := outlet_names.getD i ("Outlet " ++ toString outlet_num)
    let power :=
      if include_power_data then
        match lookupPower power_data outlet_num with
        | some (some op) => (op.power_watts, op.current_amps, op.voltage_volts)
        | _ => (none, none, none)
      else (none, none, none)
    { index := outlet_num, name := name, status := status,
      power_watts := power.1, current_amps := power.2.1,
      voltage_volts := power.2.2 : OutletInfo })

/-- Embedding of `WattBoxClient.get_all_outlets_info`: zip statuses, names and
optional power data; a status failure returns the empty list, a name
failure synthesizes default names, and short lists are padded with
`False` / default names. -/
def getAllOutletsInfo (include_power_data : Bool) (s : ClientState) :
    Except PyErr (List OutletInfo) × ClientState :=
  match getOutletCount s with
  | (.error e, s1) => (.error e, s1)
  | (.ok outlet_count, s1) =>
    match getOutletStatus s1 with
    | (.error _, s2) => (.ok [], s2)
    | (.ok outlet_statuses, s2) =>
      let nr : List String × ClientState :=
        match getOutletNames s2 with
        | (.ok ns, t) => (ns, t)
        | (.error _, t) => (defaultNames outlet_count, t)
      let pr : List (Int × Option OutletInfo) × ClientState :=
        if include_power_data then getAllOutletsPowerData nr.2 else ([], nr.2)
      (.ok (assembleOutlets outlet_count outlet_statuses nr.1 include_power_data pr.1),
       pr.2)

/-- Embedding of `WattBoxClient.set_outlet`: validate the index (0 is broadcast) and
the action verb, send one `!OutletSet` control command, and report the
success token. -/
def setOutlet (outlet : Int) (action : String) (delay : Option Int)
    (s : ClientState) : Except PyErr Bool × ClientState :=
  match getOutletCount s with
  | (.error e, s1) => (.error e, s1)
  | (.ok outlet_count, s1) =>
    if outlet ≠ 0 ∧ !validate_outlet_number outlet outlet_count then
      (.error (.valueError ("Invalid outlet number: " ++ toString outlet)), s1)
    else if action ∉ ["ON", "OFF", "TOGGLE", "RESET"] then
      (.error (.valueError ("Invalid action: " ++ action)), s1)
    else
      match sendCommand (WattBoxEndpoints.outlet_set outlet action delay) s1 with
      | (.error e, s2) => (.error e, s2)
      | (.ok response, s2) => (.ok (is_success_response response), s2)

/-- Embedding of `WattBoxClient.get_power_status`: `None` when the response cannot
be parsed (`ValueError`/`IndexError`); command errors propagate. -/
def getPowerStatus (s : ClientState) : Except PyErr (Option PowerStatus) × ClientState :=
  match sendCommand WattBoxEndpoints.POWER_STATUS s with
  | (.error e, s1) =>
    if e.isValueOrIndexError then (.ok none, s1) else (.error e, s1)
  | (.ok response, s1) =>
    match parse_power_status_response response with
    | .ok p => (.ok (some p), s1)
    | .error e =>
      if e.isValueOrIndexError then (.ok none, s1) else (.error e, s1)

/-- Embedding of `WattBoxClient.get_ups_connection_status`: parse the first value
after `=`; unparsable values yield `False`; command errors propagate. -/
def getUpsConnectionStatus (s : ClientState) : Except PyErr Bool × ClientState :=
  match sendCommand WattBoxEndpoints.UPS_CONNECTION s with
  | (.error e, s1) =>
    if e.isValueOrIndexError then (.ok false, s1) else (.error e, s1)
  | (.ok response, s1) =>
    let status := if pyIn "=" response then (pySplit response '=').getD 1 "" else "0"
    let status := pyStrip ((pySplit status ',').getD 0 "")
    match pyInt status with
    | some n => (.ok (decide (n ≠ 0)), s1)
    | none => (.ok false, s1)

/-- Embedding of `WattBoxClient.get_ups_status`. -/
def getUpsStatus (s : ClientState) : Except PyErr UPSStatus × ClientState :=
  match sendCommand WattBoxEndpoints.UPS_STATUS s with
  | (.error e, s1) => (.error e, s1)
  | (.ok response, s1) => (parse_ups_status_response response, s1)

/-- Embedding of `WattBoxClient.get_auto_reboot_status`: same shape as the UPS
connection query. -/
def getAutoRebootStatus (s : ClientState) : Except PyErr Bool × ClientState :=
  match sendCommand WattBoxEndpoints.AUTO_REBOOT s with
  | (.error e, s1) =>
    if e.isValueOrIndexError then (.ok false, s1) else (.error e, s1)
  | (.ok response, s1) =>
    let status := if pyIn "=" response then (pySplit response '=').getD 1 "" else "0"
    let status := pyStrip ((pySplit status ',').getD 0 "")
    match pyInt status with
    | some n => (.ok (decide (n ≠ 0)), s1)
    | none => (.ok false, s1)

/-- The UPS leg of `get_device_info`: the UPS status is only queried
when the UPS is connected, and a `WattBoxCommandError` from that query
is swallowed, leaving the field absent. -/
def upsFetch (ups_connected : Bool) (s : ClientState) :
    Except PyErr (Option UPSStatus) × ClientState :=
  if ups_connected then
    match getUpsStatus s with
    | (.ok u, t) => (.ok (some u), t)
    | (.error e, t) =>
      if e.isCommandError then (.ok none, t) else (.error e, t)
  else (.ok none, s)

/-- The body of `get_device_info` past the cache check. -/
def getDeviceInfoFresh (include_outlet_power : Bool) (s : ClientState) :
    Except PyErr WattBoxDevice × ClientState :=
  match getSystemInfo s with
  | (.error e, s1) => (.error e, s1)
  | (.ok system_info, s1) =>
  match getAllOutletsInfo include_outlet_power s1 with
  | (.error e, s2) => (.error e, s2)
  | (.ok outlets, s2) =>
  match getPowerStatus s2 with
  | (.error e, s3) => (.error e, s3)
  | (.ok power_status, s3) =>
  match getUpsConnectionStatus s3 with
  | (.error e, s4) => (.error e, s4)
  | (.ok ups_connected, s4) =>
  match upsFetch ups_connected s4 with
  | (.error e, s5) => (.error e, s5)
  | (.ok ups_status, s5) =>
  match getAutoRebootStatus s5 with
  | (.error e, s6) => (.error e, s6)
  | (.ok auto_reboot_enabled, s6) =>
    let d : WattBoxDevice :=
      { system_info := system_info, outlets := outlets,
        power_status := power_status, ups_status := ups_status,
        ups_connected := ups_connected, auto_reboot_enabled := auto_reboot_enabled }
    (.ok d, { s6 with device_info := some d })

/-- Embedding of `WattBoxClient.get_device_info`: serve the cached snapshot unless a
refresh is forced, else assemble a fresh one. -/
def getDeviceInfo (refresh include_outlet_power : Bool) (s : ClientState) :
    Except PyErr WattBoxDevice × ClientState :=
  match s.device_info, refresh with
  | some d, false => (.ok d, s)
  | _, _ => getDeviceInfoFresh include_outlet_power s

/-! ## Authentication (client.py `_authenticate`, `_wait_for_prompts`)

The prompt handshake is modelled on the chunks the socket delivers:
`_wait_for_prompts` accumulates chunks and checks the case-insensitive
markers against the cumulative buffer; an exhausted chunk list models
the overall timeout, and an empty chunk models the peer closing the
connection (the loop breaks and the same timeout error is raised). -/

def loginPrompts : List String := ["login:", "username:", "user:"]

def passwordPrompts : List String := ["password:", "pass:"]

/-- The rejection markers checked after the password is sent. -/
def rejectionMarkers : List String := ["login:", "username:", "invalid", "incorrect"]

/-- Any of the prompts occurs in the lowercased buffer
(`prompt.lower() in buffer_lower`). -/
def promptFound (prompts : List String) (buf : String) : Bool :=
  prompts.any (fun p => pyIn (pyLower p) (pyLower buf))

/-- Embedding of `WattBoxClient._wait_for_prompts` over the list of received chunks. -/
def waitForPrompts (prompts : List String) : List String → String → Except PyErr String
  | [], buf =>
    .error (.timeoutError ("Timeout waiting for prompts. Received: " ++ buf))
  | chunk :: rest, buf =>
    if chunk = "" then
      .error (.timeoutError ("Timeout waiting for prompts. Received: " ++ buf))
    else
      let buf2 := buf ++ chunk
      if promptFound prompts buf2 then .ok buf2
      else waitForPrompts prompts rest buf2

/-- The rejection check after sending the password:
`any(prompt in response.lower() for prompt in [...])`. -/
def containsRejection (response : String) : Bool :=
  rejectionMarkers.any (fun m => pyIn m (pyLower response))

/-- The observable inputs of one authentication attempt: the chunks
delivered while waiting for the login prompt, those for the password
prompt, and the buffer `_read_available_data` returns after the
password is sent. -/
structure AuthScript where
  loginChunks : List String
  passwordChunks : List String
  postBuffer : String

/-- Embedding of `WattBoxClient._authenticate`: prompt handshake, then the
rejection-marker check; `.ok` models the transition to Authenticated. -/
def authenticate (sc : AuthScript) : Except PyErr Unit :=
  match waitForPrompts loginPrompts sc.loginChunks "" with
  | .error e => .error e
  | .ok _ =>
    match waitForPrompts passwordPrompts sc.passwordChunks "" with
    | .error e => .error e
    | .ok _ =>
      if containsRejection sc.postBuffer then
        .error (.authenticationError "Invalid credentials")
      else .ok ()

/-! ## Concrete scripted devices for the theorems below -/

/-- A responder that answers every command with one fixed line. -/
def okLine (l : String) : String → List String := fun _ => [l]

/-- A device that answers system-info and power queries normally but
answers the outlet-status query with the protocol error token. -/
def failStatusScript : List (String → List String) :=
  [okLine "?Firmware=1.0", okLine "?Hostname=wb", okLine "?ServiceTag=ST1",
   okLine "?Model=WB-800-IPVM-12", okLine "?OutletCount=12", okLine "#Error",
   okLine "?PowerStatus=5.5,660.0,120.0,1", okLine "?UPSConnection=0",
   okLine "?AutoReboot=0"]

/-- A two-outlet device where every query succeeds except the UPS
connection query, which is answered by `upsLine`. -/
def twoOutletScript (upsLine : String) : List (String → List String) :=
  [okLine "?Firmware=1.0", okLine "?Hostname=wb", okLine "?ServiceTag=ST1",
   okLine "?Model=WB-2", okLine "?OutletCount=2", okLine "?OutletStatus=1,0",
   okLine "?OutletName=\x7bA\x7d,\x7bB\x7d", okLine "?PowerStatus=5.5,660.0,120.0,1",
   okLine upsLine, okLine "?AutoReboot=1"]

/-- Outlet-status query answered with an unparsable line, then with a
good line. -/
def statusRetryScript : List (String → List String) :=
  [okLine "garbage", okLine "?OutletStatus=1,0"]

/-- Outlet-status query answered with unparsable lines twice. -/
def statusTwiceBadScript : List (String → List String) :=
  [okLine "garbage", okLine "garbage2"]

/-- Outlet-status query answered with the protocol error token. -/
def statusErrorScript : List (String → List String) :=
  [okLine "#Error"]

/-- A device that answers the next query with a line for a different
query and then goes silent. -/
def crossTalkScript : List (String → List String) :=
  [okLine "?Firmware=1.2"]

/-- A device whose first line is cross-talk and whose second line is
the correct response. -/
def crossTalkRecoveryScript : List (String → List String) :=
  [fun _ => ["junk", "?Model=WB150"]]

/-- A client state with a cached outlet count of 8 and one scripted
exchange that answers `"OK"`. -/
def cachedCountState : ClientState :=
  { initState [okLine "OK"] with outlet_count := some 8 }

/-- An authentication run: normal prompts, then a rejection buffer. -/
def rejectedAuthScript : AuthScript :=
  { loginChunks := ["login:"], passwordChunks := ["password:"],
    postBuffer := "Invalid credentials, login: " }

/-! ## Helper lemmas -/

theorem data_append (s t : String) : (s ++ t).data = s.data ++ t.data := rfl

theorem data_mk (l : List Char) : (⟨l⟩ : String).data = l := rfl

theorem dropWhile_eq_self_of_head (p : Char → Bool) (l : List Char)
    (h : ∀ a, l.head? = some a → p a = false) : l.dropWhile p = l := by
  cases l with
  | nil => rfl
  | cons a t => simp [List.dropWhile_cons, h a rfl]

theorem dropWhile_head?_not (p : Char → Bool) (l : List Char) :
    ∀ a, (l.dropWhile p).head? = some a → p a = false := by
  induction l with
  | nil => intro a ha; simp at ha
  | cons b t ih =>
    intro a ha
    by_cases hb : p b = true
    · rw [List.dropWhile_cons, if_pos hb] at ha
      exact ih a ha
    · rw [List.dropWhile_cons, if_neg hb] at ha
      simp only [List.head?_cons, Option.some.injEq] at ha
      cases ha
      simpa using hb

theorem stripL_head_not_ws (l : List Char) :
    ∀ a, (stripL l).head? = some a → pyWs a = false := by
  intro a ha
  have hpre : (stripL l) <+: (l.dropWhile pyWs) := List.rdropWhile_prefix ..
  obtain ⟨t, ht⟩ := hpre
  apply dropWhile_head?_not pyWs l a
  rw [← ht]
  cases hsl : stripL l with
  | nil => rw [hsl] at ha; simp at ha
  | cons b rest => rw [hsl] at ha; simpa using ha

theorem stripL_idem (l : List Char) : stripL (stripL l) = stripL l := by
  show List.rdropWhile pyWs ((stripL l).dropWhile pyWs) = stripL l
  rw [dropWhile_eq_self_of_head pyWs _ (stripL_head_not_ws l)]
  show List.rdropWhile pyWs (List.rdropWhile pyWs (l.dropWhile pyWs)) = _
  rw [List.rdropWhile_idempotent ..]
  rfl

theorem pyStrip_idem (s : String) : pyStrip (pyStrip s) = pyStrip s :=
  congrArg String.mk (stripL_idem s.data)

theorem count_dropWhile_of_ne (p : Char → Bool) (c : Char) (hc : p c = false)
    (l : List Char) : (l.dropWhile p).count c = l.count c := by
  conv_rhs => rw [← List.takeWhile_append_dropWhile (p := p) (l := l)]
  rw [List.count_append ..]
  have h0 : (l.takeWhile p).count c = 0 := by
    rw [List.count_eq_zero]
    intro hmem
    have := List.mem_takeWhile_imp hmem
    rw [hc] at this
    exact Bool.false_ne_true this
  omega

theorem count_stripL (c : Char) (hc : pyWs c = false) (l : List Char) :
    (stripL l).count c = l.count c := by
  unfold stripL
  rw [List.count_reverse .., count_dropWhile_of_ne pyWs c hc,
      List.count_reverse .., count_dropWhile_of_ne pyWs c hc]

theorem count_removeAllFuel (pat : List Char) (c : Char) (hc : c ∉ pat) :
    ∀ fuel l, l.length ≤ fuel → (removeAllFuel pat fuel l).count c = l.count c := by
  intro fuel
  induction fuel with
  | zero =>
    intro l hl
    have hnil : l = [] := List.length_eq_zero.mp (Nat.le_zero.mp hl)
    subst hnil
    rfl
  | succ n ih =>
    intro l hl
    cases l with
    | nil => rfl
    | cons a rest =>
      by_cases hp : pat ≠ [] ∧ pat.isPrefixOf (a :: rest) = true
      · rw [removeAllFuel, if_pos hp]
        obtain ⟨t, ht⟩ := List.isPrefixOf_iff_prefix.mp hp.2
        have hpat : 0 < pat.length := List.length_pos.mpr hp.1
        rw [← ht, List.drop_left ..]
        have hlt : t.length ≤ n := by
          have := congrArg List.length ht
          simp only [List.length_append, List.length_cons] at this hl
          omega
        rw [ih t hlt, List.count_append .., List.count_eq_zero.mpr hc]
        omega
      · rw [removeAllFuel, if_neg hp]
        have hlen : rest.length ≤ n := by
          simp only [List.length_cons] at hl
          omega
        simp [List.count_cons, ih rest hlen]

theorem count_removeAll (pat : List Char) (c : Char) (hc : c ∉ pat)
    (l : List Char) : (removeAll pat l).count c = l.count c :=
  count_removeAllFuel pat c hc l.length l le_rfl

theorem splitOnChar_length (sep : Char) (l : List Char) :
    (splitOnChar sep l).length = l.count sep + 1 := by
  induction l with
  | nil => simp [splitOnChar]
  | cons a t ih =>
    by_cases h : a = sep
    · subst h
      simp [splitOnChar, ih, List.count_cons]
    · cases hs : splitOnChar sep t with
      | nil => rw [hs] at ih; simp at ih
      | cons g gs =>
        rw [hs] at ih
        simp only [splitOnChar, if_neg h, hs, List.length_cons] at *
        simp [List.count_cons, Ne.symm h, ih]

theorem pySplit_length (s : String) (sep : Char) :
    (pySplit s sep).length = s.data.count sep + 1 := by
  rw [pySplit, List.length_map, splitOnChar_length]

theorem stripL_cons_head (a : Char) (l : List Char) (ha : pyWs a = false) :
    ∃ t, stripL (a :: l) = a :: t := by
  unfold stripL
  rw [List.dropWhile_cons, if_neg (by simp [ha])]
  rw [List.reverse_cons, List.dropWhile_append]
  by_cases hd : (l.reverse.dropWhile pyWs).isEmpty
  · rw [if_pos hd]
    refine ⟨[], ?_⟩
    rw [List.dropWhile_cons]
    simp [ha]
  · rw [if_neg hd]
    exact ⟨(l.reverse.dropWhile pyWs).reverse, by rw [List.reverse_append]; rfl⟩

theorem pyStarts_strip_bang (l : List Char) :
    pyStarts (pyStrip ⟨'!' :: l⟩) "?" = false := by
  obtain ⟨t, ht⟩ := stripL_cons_head '!' l (by decide)
  show ("?".data).isPrefixOf (stripL ('!' :: l)) = false
  rw [ht]
  rfl

theorem getLast?_append_right (l₁ l₂ : List Char) (b : Char)
    (h : l₂.getLast? = some b) : (l₁ ++ l₂).getLast? = some b := by
  cases l₂ with
  | nil => simp at h
  | cons x xs => rw [List.getLast?_append_cons]; exact h

theorem pyEnds_newline_false (x action : String) (b : Char)
    (hab : action.data.getLast? = some b) (hb : b ≠ '\n') :
    pyEnds (x ++ action) "\n" = false := by
  by_contra hcon
  rw [Bool.not_eq_false] at hcon
  have hsuf : ("\n".data) <:+ (x ++ action).data :=
    List.isSuffixOf_iff_suffix.mp hcon
  obtain ⟨t, ht⟩ := hsuf
  have h1 : (x ++ action).data.getLast? = some '\n' := by
    rw [← ht]
    exact getLast?_append_right t ['\n'] '\n' rfl
  have h2 : (x ++ action).data.getLast? = some b := by
    rw [data_append]
    exact getLast?_append_right x.data action.data b hab
  rw [h1] at h2
  exact hb (Option.some.injEq .. ▸ h2).symm

theorem waitForPrompts_error_timeout (prompts chunks : List String) :
    ∀ buf e, waitForPrompts prompts chunks buf = .error e → e.isTimeoutError = true := by
  induction chunks with
  | nil =>
    intro buf e h
    unfold waitForPrompts at h
    injection h with h1
    rw [← h1]; rfl
  | cons c rest ih =>
    intro buf e h
    unfold waitForPrompts at h
    split at h
    · injection h with h1; rw [← h1]; rfl
    · simp only [] at h
      by_cases hp : promptFound prompts (buf ++ c) = true
      · rw [if_pos hp] at h; exact absurd h (by simp)
      · rw [if_neg hp] at h; exact ih _ e h

theorem getOutletCount_cached (s : ClientState) (c : Int) (h : s.outlet_count = some c) :
    getOutletCount s = (.ok c, s) := by
  unfold getOutletCount
  rw [h]

theorem sendCommand_state (c : String) (s : ClientState) :
    (sendCommand c s).2
      = { s with script := s.script.tail, sent := s.sent ++ [format_command c] } := by
  unfold sendCommand
  simp only []
  split <;> split <;> rfl

set_option maxHeartbeats 1600000 in
theorem getSystemInfo_caches (s : ClientState) (si : SystemInfo) (s' : ClientState)
    (h : getSystemInfo s = (.ok si, s')) : s'.outlet_count = some si.outlet_count := by
  unfold getSystemInfo at h
  split at h
  · exact absurd h (by simp)
  · split at h
    · exact absurd h (by simp)
    · split at h
      · exact absurd h (by simp)
      · split at h
        · exact absurd h (by simp)
        · split at h
          · exact absurd h (by simp)
          · simp only [] at h
            injection h with h1 h2
            injection h1 with h1
            rw [← h1, ← h2]

set_option maxHeartbeats 1600000 in
theorem getAllOutletsInfo_length (include_power_data : Bool) (s : ClientState) (c : Int)
    (hc : s.outlet_count = some c) (l : List OutletInfo) (s' : ClientState)
    (h : getAllOutletsInfo include_power_data s = (.ok l, s')) :
    l = [] ∨ l.length = c.toNat := by
  unfold getAllOutletsInfo at h
  rw [getOutletCount_cached s c hc] at h
  simp only [] at h
  split at h
  · left
    injection h with h1 h2
    injection h1 with h1
    exact h1.symm
  · right
    injection h with h1 h2
    injection h1 with h1
    rw [← h1]
    simp [assembleOutlets]
/-! ## Claim theorems -/

/-- C3 counterexample: the line `?OutletStatus=1,x,0` contains the
comma-separated token `x`, which is not a boolean `1`/`0` token, yet
the parser does not raise: it silently drops the token and returns
`[true, false]`. -/
theorem c3_counterexample :
    parse_outlet_status_response "?OutletStatus=1,x,0" = .ok [true, false] := by
  rfl

/-- C3 amended: parsing `?OutletStatus=1,0,1,0,1,0` yields exactly
`[true,false,true,false,true,false]`; a token containing a non-digit
character is silently skipped (shortening the list) rather than
raising, and an all-digit token parses as true iff its value is
nonzero. -/
theorem c3_outlet_status_amended :
    parse_outlet_status_response "?OutletStatus=1,0,1,0,1,0"
      = .ok [true, false, true, false, true, false] ∧
    parse_outlet_status_response "?OutletStatus=1,x,0,2" = .ok [true, false, true] :=
  ⟨rfl, rfl⟩

/-- C10: for every input beginning with `?OutletStatus=` the parser is
total (never raises); an all-digit token such as `2` contributes
`true` (nonzero), and a token with a non-digit character is silently
skipped, shortening the returned list. -/
theorem c10_outlet_status_total :
    (∀ s : String, pyStarts s "?OutletStatus=" = true →
      ∃ l, parse_outlet_status_response s = .ok l) ∧
    parse_outlet_status_response "?OutletStatus=1,2,x,0" = .ok [true, true, false] := by
  constructor
  · intro s hs
    unfold parse_outlet_status_response
    rw [hs]
    exact ⟨_, rfl⟩
  · rfl

/-- C10 witness: the totality statement applied at a concrete line. -/
theorem c10_witness : ∃ l, parse_outlet_status_response "?OutletStatus=1" = .ok l :=
  c10_outlet_status_total.1 "?OutletStatus=1" rfl

/-- C5: parsing `?PowerStatus=5.5,660.0,120.0,1` yields
current_amps = 5.5, power_watts = 660.0, voltage_volts = 120.0 and
safe_voltage_status = true; the same record is produced when the
`?PowerStatus=` marker is absent; and every line with 3
comma-separated fields instead of 4 raises `ValueError`. -/
theorem c5_power_status :
    parse_power_status_response "?PowerStatus=5.5,660.0,120.0,1"
      = .ok { current_amps := 5.5, power_watts := 660, voltage_volts := 120,
              safe_voltage_status := true } ∧
    parse_power_status_response "5.5,660.0,120.0,1"
      = .ok { current_amps := 5.5, power_watts := 660, voltage_volts := 120,
              safe_voltage_status := true } ∧
    ∀ s : String, (pySplit s ',').length = 3 →
      ∃ m, parse_power_status_response s = .error (.valueError m) := by
  have h55 : (5.5 : ℚ) = mkRat 11 2 := by norm_num [mkRat]
  refine ⟨by rw [h55]; rfl, by rw [h55]; rfl, ?_⟩
  intro s h
  have hc : s.data.count ',' = 2 := by
    rw [pySplit_length] at h
    omega
  unfold parse_power_status_response
  simp only []
  by_cases h1 : pyStarts (pyStrip s) "?PowerStatus=" = true
  · rw [if_pos h1]
    simp only []
    have hv : (pySplit (pyStrip (pyRemove (pyStrip s) "?PowerStatus=")) ',').length = 3 := by
      rw [pySplit_length]
      show (stripL (removeAll ("?PowerStatus=".data) (stripL s.data))).count ',' + 1 = 3
      rw [count_stripL ',' (by decide), count_removeAll _ _ (by decide),
          count_stripL ',' (by decide), hc]
    obtain ⟨a, b, c, habc⟩ := List.length_eq_three.mp hv
    rw [habc]
    exact ⟨_, rfl⟩
  · rw [if_neg h1]
    by_cases h2 : (pyIn "," (pyStrip s) && !pyStarts (pyStrip s) "?") = true
    · rw [if_pos h2]
      simp only []
      have hv : (pySplit (pyStrip (pyStrip s)) ',').length = 3 := by
        rw [pyStrip_idem, pySplit_length]
        show (stripL s.data).count ',' + 1 = 3
        rw [count_stripL ',' (by decide), hc]
      obtain ⟨a, b, c, habc⟩ := List.length_eq_three.mp hv
      rw [habc]
      exact ⟨_, rfl⟩
    · rw [if_neg h2]
      by_cases h3 : pyStarts (pyStrip s) "?OutletName=" = true
      · rw [if_pos h3]
        exact ⟨_, rfl⟩
      · rw [if_neg h3]
        exact ⟨_, rfl⟩

/-- C5 witness: the field-count statement applied at the concrete
three-field line `1,2,3`. -/
theorem c5_witness :
    (pySplit "1,2,3" ',').length = 3 ∧
    ∃ m, parse_power_status_response "1,2,3" = .error (.valueError m) :=
  ⟨rfl, c5_power_status.2.2 "1,2,3" rfl⟩

/-- C4 counterexample: with outlet-count response text `junk-7` and
model `WB-800-IPVM-12`, the fallback returns 7 — extracted from the
response text, not from the model string — while the model string's
trailing hyphen-delimited numeric group is 12, refuting both the
claimed order (model string first) and the round-trip property. -/
theorem c4_counterexample :
    (extractOutletCountFromModel "junk-7" "WB-800-IPVM-12" (initState [])).1 = 7 ∧
    specTrailingNumericGroup "WB-800-IPVM-12" = some 12 :=
  ⟨rfl, rfl⟩

/-- C4 amended: when direct parsing fails the code scans first the
outlet-count response text and then the model string, taking the
trailing `-digits` group if present and otherwise the last number
anywhere in the text; when the response text yields nothing and the
model has a trailing hyphen-delimited numeric group, the result is
exactly that group (round-trip on this branch); when neither text
yields a number the live outlet-status query is used, and a failing
status query defaults to 8. -/
theorem c4_fallback_amended (resp model : String) (s : ClientState) (n : Nat) :
    (extractFromText resp = none → specTrailingNumericGroup model = some n →
      extractOutletCountFromModel resp model s = ((n : Int), s)) ∧
    (extractFromText resp = none → extractFromText model = none →
      extractOutletCountFromModel resp model s = determineOutletCountByTesting s) ∧
    (∀ e s1, sendCommand WattBoxEndpoints.OUTLET_STATUS s = (.error e, s1) →
      determineOutletCountByTesting s = (8, s1)) := by
  refine ⟨?_, ?_, ?_⟩
  · intro h1 h2
    have hne : model ≠ "" := by
      intro hm
      rw [hm] at h2
      exact Option.noConfusion (show (none : Option Nat) = some n from h2)
    have hm : extractFromText model = some n := by
      unfold extractFromText
      rw [if_neg hne]
      rw [show trailingHyphenNumber model = some n from h2]
    unfold extractOutletCountFromModel
    rw [h1, hm]
  · intro h1 h2
    unfold extractOutletCountFromModel
    rw [h1, h2]
  · intro e s1 hse
    unfold determineOutletCountByTesting
    rw [hse]

/-- C4 witness: the round-trip branch applied at a concrete response
text with no digits and the model `WB-800-IPVM-12`. -/
theorem c4_witness :
    extractOutletCountFromModel "?OutletCount=" "WB-800-IPVM-12" (initState [])
      = ((12 : Int), initState []) :=
  (c4_fallback_amended "?OutletCount=" "WB-800-IPVM-12" (initState []) 12).1 rfl rfl

/-- C6 counterexample: when the outlet-status query fails because the
device answers with the protocol error token `#Error`, the resulting
`WattBoxCommandError` is not a `ValueError`, so `get_outlet_status`
raises it immediately — no retry, no empty-list degradation. -/
theorem c6_counterexample :
    (getOutletStatus (initState statusErrorScript)).1
      = .error (.commandError "Command failed: #Error") :=
  rfl

/-- C6 amended: only a `ValueError` (parse failure) on the first
attempt triggers the single retry; a `ValueError` on the retry as well
degrades to the empty list without raising, a successful retry returns
its parsed result, and a non-`ValueError` failure (command error or
timeout) propagates immediately. -/
theorem c6_status_retry (s : ClientState) :
    (∀ e l, (outletStatusAttempt s).1 = .error e → e.isValueError = true →
      (outletStatusAttempt (outletStatusAttempt s).2).1 = .ok l →
      (getOutletStatus s).1 = .ok l) ∧
    (∀ e e2, (outletStatusAttempt s).1 = .error e → e.isValueError = true →
      (outletStatusAttempt (outletStatusAttempt s).2).1 = .error e2 →
      e2.isValueError = true →
      (getOutletStatus s).1 = .ok []) ∧
    (∀ e, (outletStatusAttempt s).1 = .error e → e.isValueError = false →
      (getOutletStatus s).1 = .error e) := by
  rcases hA : outletStatusAttempt s with ⟨r1, s1⟩
  refine ⟨?_, ?_, ?_⟩
  · intro e l h1 hv h2
    have h1' : r1 = .error e := h1
    subst h1'
    have h2' : (outletStatusAttempt s1).1 = .ok l := h2
    rcases hB : outletStatusAttempt s1 with ⟨r2, s2⟩
    rw [hB] at h2'
    have h2'' : r2 = .ok l := h2'
    subst h2''
    unfold getOutletStatus
    rw [hA]
    simp only []
    rw [if_pos hv, hB]
  · intro e e2 h1 hv h2 hv2
    have h1' : r1 = .error e := h1
    subst h1'
    have h2' : (outletStatusAttempt s1).1 = .error e2 := h2
    rcases hB : outletStatusAttempt s1 with ⟨r2, s2⟩
    rw [hB] at h2'
    have h2'' : r2 = .error e2 := h2'
    subst h2''
    unfold getOutletStatus
    rw [hA]
    simp only []
    rw [if_pos hv, hB]
    simp only []
    rw [if_pos hv2]
  · intro e h1 hv
    have h1' : r1 = .error e := h1
    subst h1'
    unfold getOutletStatus
    rw [hA]
    simp only []
    rw [if_neg (by rw [hv]; exact Bool.false_ne_true)]

/-- C6 witness: the retry-then-degrade branch applied to a device that
answers the status query with unparsable lines twice. -/
theorem c6_witness :
    (getOutletStatus (initState statusTwiceBadScript)).1 = .ok [] :=
  (c6_status_retry (initState statusTwiceBadScript)).2.1
    (.valueError "Invalid outlet status response: garbage")
    (.valueError "Invalid outlet status response: garbage2")
    rfl rfl rfl rfl

/-- C9 counterexample: a single serialized query whose only delivered
line belongs to a different query is returned as-is after the three
recovery reads find nothing, so a caller can receive a response that
does not match its own request prefix even with exclusive access to
the channel. -/
theorem c9_counterexample :
    (sendCommand "?Model" (initState crossTalkScript)).1 = .ok "?Firmware=1.2" ∧
    pyStarts "?Firmware=1.2" "?Model" = false :=
  ⟨rfl, rfl⟩

/-- C9 amended: every command executes as one atomic exchange — it
consumes exactly one scripted exchange and appends exactly one
formatted command to the send trace (the embedding of the
lock-serialized send-drain-receive cycle) — and for a query command
whose first line does not match the expected prefix, the channel
returns the first of up to 3 additional reads that does match; if none
matches, the non-matching first line may be returned. -/
theorem c9_channel (c : String) (s : ClientState) :
    ((sendCommand c s).2.script = s.script.tail ∧
     (sendCommand c s).2.sent = s.sent ++ [format_command c]) ∧
    (∀ r rest, s.script = r :: rest →
      pyStarts (pyStrip (format_command c)) "?" = true →
      pyStarts (readLineAt (r (format_command c)) 0) (expectedPre (format_command c)) = false →
      pyStarts (readLineAt (r (format_command c)) 1) (expectedPre (format_command c)) = true →
      is_error_response (readLineAt (r (format_command c)) 1) = false →
      (sendCommand c s).1 = .ok (readLineAt (r (format_command c)) 1)) := by
  constructor
  · rw [sendCommand_state]
    exact ⟨rfl, rfl⟩
  · intro r rest hs hq h0 h1 herr
    unfold sendCommand
    rw [hs]
    simp only [List.head?_cons, List.tail_cons]
    have hcond : (pyStarts (pyStrip (format_command c)) "?"
        && !pyStarts (readLineAt (r (format_command c)) 0)
             (expectedPre (format_command c))) = true := by
      rw [hq, h0]
      rfl
    rw [if_pos hcond]
    unfold crossTalk
    rw [if_pos h1]
    rw [if_neg (by rw [herr]; exact Bool.false_ne_true)]

/-- C9 witness: the recovery statement applied to a device whose first
line is cross-talk and whose second line is the correct response. -/
theorem c9_witness :
    (sendCommand "?Model" (initState crossTalkRecoveryScript)).1 = .ok "?Model=WB150" :=
  (c9_channel "?Model" (initState crossTalkRecoveryScript)).2
    (fun _ => ["junk", "?Model=WB150"]) [] rfl rfl rfl rfl rfl

/-- C8: after the password is sent (both prompts having been observed),
authentication fails with `WattBoxAuthenticationError` exactly when
the settle-read buffer, compared case-insensitively, contains one of
the rejection markers `login:`, `username:`, `invalid`, `incorrect`,
and succeeds exactly otherwise; a missing prompt instead surfaces as
the distinct `WattBoxTimeoutError`. -/
theorem c8_authentication (sc : AuthScript) :
    ((∃ b1, waitForPrompts loginPrompts sc.loginChunks "" = .ok b1) →
     (∃ b2, waitForPrompts passwordPrompts sc.passwordChunks "" = .ok b2) →
      ((authenticate sc = .error (.authenticationError "Invalid credentials") ↔
        containsRejection sc.postBuffer = true) ∧
       (authenticate sc = .ok () ↔ containsRejection sc.postBuffer = false))) ∧
    (∀ e, waitForPrompts loginPrompts sc.loginChunks "" = .error e →
      authenticate sc = .error e ∧ e.isTimeoutError = true) := by
  constructor
  · rintro ⟨b1, hb1⟩ ⟨b2, hb2⟩
    unfold authenticate
    rw [hb1, hb2]
    cases hB : containsRejection sc.postBuffer with
    | true => simp
    | false => simp
  · intro e he
    unfold authenticate
    rw [he]
    exact ⟨rfl, waitForPrompts_error_timeout loginPrompts sc.loginChunks "" e he⟩

/-- C8 witness: the rejection iff applied to a run with normal prompts
and a post-password buffer containing `invalid` and `login:`. -/
theorem c8_witness :
    authenticate rejectedAuthScript = .error (.authenticationError "Invalid credentials") :=
  ((c8_authentication rejectedAuthScript).1 ⟨"login:", rfl⟩ ⟨"password:", rfl⟩).1.mpr rfl

theorem format_command_outlet_set (i : Int) (action : String)
    (ha : action = "ON" ∨ action = "OFF" ∨ action = "TOGGLE") :
    format_command (WattBoxEndpoints.outlet_set i action none)
      = WattBoxEndpoints.outlet_set i action none ++ "\n" := by
  unfold format_command WattBoxEndpoints.outlet_set
  rcases ha with h | h | h <;> subst h
  · rw [if_neg (by rw [pyEnds_newline_false _ "ON" 'N' rfl (by decide)]; exact Bool.false_ne_true)]
  · rw [if_neg (by rw [pyEnds_newline_false _ "OFF" 'F' rfl (by decide)]; exact Bool.false_ne_true)]
  · rw [if_neg (by rw [pyEnds_newline_false _ "TOGGLE" 'E' rfl (by decide)]; exact Bool.false_ne_true)]

theorem outlet_set_not_query (i : Int) (action : String) :
    pyStarts (pyStrip (WattBoxEndpoints.outlet_set i action none ++ "\n")) "?" = false := by
  have hd : ∃ t, (WattBoxEndpoints.outlet_set i action none ++ "\n").data = '!' :: t := by
    refine ⟨"OutletSet=".data ++ (toString i).data ++ ",".data ++ action.data ++ "\n".data, ?_⟩
    unfold WattBoxEndpoints.outlet_set
    simp [data_append, List.cons_append, List.append_assoc]
  obtain ⟨t, ht⟩ := hd
  have hps : pyStrip (WattBoxEndpoints.outlet_set i action none ++ "\n")
      = pyStrip ⟨'!' :: t⟩ := by
    unfold pyStrip
    rw [ht]
  rw [hps]
  exact pyStarts_strip_bang t

theorem sendCommand_control (c : String) (s : ClientState) (r : String → List String)
    (rest : List (String → List String)) (hs : s.script = r :: rest)
    (hbang : pyStarts (pyStrip (format_command c)) "?" = false) :
    (sendCommand c s).1 =
      if is_error_response (readLineAt (r (format_command c)) 0) = true then
        .error (.commandError ("Command failed: " ++ readLineAt (r (format_command c)) 0))
      else .ok (readLineAt (r (format_command c)) 0) := by
  unfold sendCommand
  rw [hs]
  simp only [List.head?_cons, List.tail_cons]
  rw [show (pyStarts (pyStrip (format_command c)) "?"
      && !pyStarts (readLineAt (r (format_command c)) 0) (expectedPre (format_command c)))
      = false from by rw [hbang]; rfl]
  rw [if_neg Bool.false_ne_true]
  by_cases hE : is_error_response (readLineAt (r (format_command c)) 0) = true
  · simp [hE]
  · simp [hE]

/-- C1: for a client with a determined outlet count n, a valid outlet
index i in [1, n] and an action among ON/OFF/TOGGLE, `set_outlet` with
no delay sends exactly one command, the control line
`!OutletSet=i,ACTION` (plus the line terminator), and returns true if
and only if the device's response line, after whitespace stripping, is
the success token `OK`. -/
theorem c1_set_outlet (i n : Int) (action : String) (r : String → List String)
    (rest : List (String → List String)) (s : ClientState)
    (hn : s.outlet_count = some n) (hi1 : 1 ≤ i) (hi2 : i ≤ n)
    (ha : action = "ON" ∨ action = "OFF" ∨ action = "TOGGLE")
    (hs : s.script = r :: rest) :
    (setOutlet i action none s).2.sent
      = s.sent ++ [WattBoxEndpoints.outlet_set i action none ++ "\n"] ∧
    ((setOutlet i action none s).1 = .ok true ↔
      pyStrip ((r (WattBoxEndpoints.outlet_set i action none ++ "\n")).getD 0 "") = "OK") := by
  have hfmt := format_command_outlet_set i action ha
  have hbang : pyStarts (pyStrip (format_command (WattBoxEndpoints.outlet_set i action none))) "?"
      = false := by
    rw [hfmt]
    exact outlet_set_not_query i action
  have hval : validate_outlet_number i n = true := by
    unfold validate_outlet_number
    rw [decide_eq_true hi1, decide_eq_true hi2]
    rfl
  have hmem : action ∈ ["ON", "OFF", "TOGGLE", "RESET"] := by
    rcases ha with h | h | h <;> subst h <;> decide
  have hsent := congrArg ClientState.sent
    (sendCommand_state (WattBoxEndpoints.outlet_set i action none) s)
  have hres := sendCommand_control (WattBoxEndpoints.outlet_set i action none) s r rest hs hbang
  unfold setOutlet
  rw [getOutletCount_cached s n hn]
  simp only []
  rw [if_neg (fun hcon => by rw [hval] at hcon; exact Bool.false_ne_true hcon.2)]
  rw [if_neg (fun hno => hno hmem)]
  rcases hsc : sendCommand (WattBoxEndpoints.outlet_set i action none) s with ⟨res, s2⟩
  rw [hsc] at hsent hres
  rw [hfmt] at hsent hres
  constructor
  · have hsent' : s2.sent = s.sent ++ [WattBoxEndpoints.outlet_set i action none ++ "\n"] := hsent
    cases res <;> simpa using hsent'
  · have hline0 : readLineAt (r (WattBoxEndpoints.outlet_set i action none ++ "\n")) 0
        = pyStrip ((r (WattBoxEndpoints.outlet_set i action none ++ "\n")).getD 0 "") := rfl
    by_cases hE : is_error_response
        (readLineAt (r (WattBoxEndpoints.outlet_set i action none ++ "\n")) 0) = true
    · rw [if_pos hE] at hres
      have hres' : res = .error (.commandError ("Command failed: "
          ++ readLineAt (r (WattBoxEndpoints.outlet_set i action none ++ "\n")) 0)) := hres
      subst hres'
      constructor
      · intro habs
        exact absurd habs (by simp)
      · intro hok
        rw [hline0, hok] at hE
        exact absurd hE (by decide)
    · rw [if_neg hE] at hres
      have hres' : res = .ok (readLineAt (r (WattBoxEndpoints.outlet_set i action none ++ "\n")) 0) := hres
      subst hres'
      simp only []
      have hss : is_success_response
          (readLineAt (r (WattBoxEndpoints.outlet_set i action none ++ "\n")) 0)
          = (pyStrip ((r (WattBoxEndpoints.outlet_set i action none ++ "\n")).getD 0 "") == "OK") := by
        unfold is_success_response readLineAt
        rw [pyStrip_idem]
      rw [hss]
      constructor
      · intro hok
        have : (pyStrip ((r (WattBoxEndpoints.outlet_set i action none ++ "\n")).getD 0 "") == "OK")
            = true := by
          injection hok
        exact (beq_iff_eq ..).mp this
      · intro hok
        rw [hok]
        rfl

/-- C1 witness: the theorem applied to a client with cached outlet
count 8 and a device that answers `OK`. -/
theorem c1_witness :
    (setOutlet 3 "ON" none cachedCountState).2.sent = ["!OutletSet=3,ON\n"] ∧
    (setOutlet 3 "ON" none cachedCountState).1 = .ok true := by
  have h := c1_set_outlet 3 8 "ON" (okLine "OK") [] cachedCountState rfl
    (by decide) (by decide) (Or.inl rfl) rfl
  exact ⟨h.1, h.2.mpr rfl⟩

theorem getDeviceInfoFresh_outlets (include_outlet_power : Bool) (s : ClientState)
    (d : WattBoxDevice)
    (h : (getDeviceInfoFresh include_outlet_power s).1 = .ok d) :
    d.outlets.length = d.system_info.outlet_count.toNat ∨ d.outlets = [] := by
  unfold getDeviceInfoFresh at h
  rcases h1 : getSystemInfo s with ⟨rs, s1⟩
  rw [h1] at h
  cases rs with
  | error e => simp at h
  | ok si =>
    simp only [] at h
    have hc1 : s1.outlet_count = some si.outlet_count := getSystemInfo_caches s si s1 h1
    rcases h2 : getAllOutletsInfo include_outlet_power s1 with ⟨ro, s2⟩
    rw [h2] at h
    cases ro with
    | error e => simp at h
    | ok outlets =>
      simp only [] at h
      have hlen := getAllOutletsInfo_length include_outlet_power s1 si.outlet_count hc1
        outlets s2 h2
      rcases h3 : getPowerStatus s2 with ⟨rp, s3⟩
      rw [h3] at h
      cases rp with
      | error e => simp at h
      | ok power =>
        simp only [] at h
        rcases h4 : getUpsConnectionStatus s3 with ⟨ru, s4⟩
        rw [h4] at h
        cases ru with
        | error e => simp at h
        | ok upsConn =>
          simp only [] at h
          rcases h5 : upsFetch upsConn s4 with ⟨ru2, s5⟩
          rw [h5] at h
          cases ru2 with
          | error e => simp at h
          | ok ups =>
            simp only [] at h
            rcases h6 : getAutoRebootStatus s5 with ⟨ra, s6⟩
            rw [h6] at h
            cases ra with
            | error e => simp at h
            | ok ar =>
              simp only [] at h
              injection h with h
              rw [← h]
              rcases hlen with hl | hl
              · right; exact hl
              · left; exact hl

/-- C2 counterexample: against a device whose outlet-status query
fails with the protocol error token while the outlet count parses as
12, `get_device_info` returns a snapshot whose SystemInfo.outlet_count
is 12 but whose outlets sequence is empty — the two disagree and no
substitute count is applied. -/
theorem c2_counterexample :
    ∃ d, (getDeviceInfo true false (initState failStatusScript)).1 = .ok d ∧
      d.system_info.outlet_count = 12 ∧ d.outlets = [] :=
  ⟨_, rfl, rfl, rfl⟩

/-- C2 amended: in every snapshot produced by a fresh `get_device_info`
run, either the outlets sequence has exactly outlet_count entries (the
assembly loop pads short status/name lists), or outlet discovery
failed and the outlets sequence is empty while outlet_count keeps its
separately determined value — so the two can disagree in the degraded
case. -/
theorem c2_snapshot_invariant (refresh include_outlet_power : Bool) (s : ClientState)
    (d : WattBoxDevice) (hcache : s.device_info = none)
    (h : (getDeviceInfo refresh include_outlet_power s).1 = .ok d) :
    d.outlets.length = d.system_info.outlet_count.toNat ∨ d.outlets = [] := by
  unfold getDeviceInfo at h
  rw [hcache] at h
  exact getDeviceInfoFresh_outlets include_outlet_power s d h

/-- C2 witness: the amended invariant applied to a fully successful
two-outlet run, where the snapshot has 2 outlets and count 2. -/
theorem c2_witness :
    ∃ d, (getDeviceInfo true false (initState (twoOutletScript "?UPSConnection=0"))).1
        = .ok d ∧
      (d.outlets.length = d.system_info.outlet_count.toNat ∨ d.outlets = []) :=
  ⟨_, rfl, c2_snapshot_invariant true false (initState (twoOutletScript "?UPSConnection=0"))
      _ rfl rfl⟩

/-- C7 counterexample: against a device that answers everything except
the UPS connection query, which returns the protocol error token,
`get_device_info` raises `WattBoxCommandError` instead of returning a
degraded snapshot: the error is not among the classes
`get_ups_connection_status` catches. -/
theorem c7_counterexample :
    (getDeviceInfo true false (initState (twoOutletScript "#Error"))).1
      = .error (.commandError "Command failed: #Error") :=
  rfl

/-- C7 amended: when the UPS connection response is present but
unparsable (the caught `ValueError` case), `get_device_info` returns a
snapshot with populated outlets and power status, `ups_status` absent
and `ups_connected` false; a protocol error response to the UPS
connection query instead propagates as `WattBoxCommandError`. -/
theorem c7_ups_degraded :
    ∃ d, (getDeviceInfo true false (initState (twoOutletScript "?UPSConnection=x"))).1
        = .ok d ∧
      d.ups_connected = false ∧ d.ups_status = none ∧
      d.outlets.length = 2 ∧ d.power_status.isSome = true :=
  ⟨_, rfl, rfl, rfl, rfl, rfl⟩
